import Mathlib

/-!
Verification development for mdwiki-dev-server (`main.go`).

The Go program is shallowly embedded below.  Byte strings are modelled as
`List Char`, one `Char` per byte; every constant involved (the injected
snippet, the `</head>` marker, header names) is ASCII, so lengths and
offsets agree with Go's byte counts.  Headers (Go's `http.Header` map,
with canonicalised keys) are modelled as association lists with a
replace-on-set update, and `Header.Get` as first lookup with default "".
-/

namespace MdwikiDevServer

abbrev ByteStr := List Char

/-- The `snippet` constant from `main.go`: the bootstrap script injected
into served HTML pages.  Transcribed verbatim from the Go raw string
literal (braces escaped for this file's syntax). -/
def snippetString : String :=
"
<!-- From: https://www.npmjs.org/package/node-live-reload -->
<!-- Inserted by mdwiki-dev-server                        -->
<script>
var ws;
function socket() \x7b
  ws = new WebSocket(\"ws://127.0.0.1:8080/_reloader\");
  ws.onmessage = function ( e ) \x7b
    var data = JSON.parse(e.data);
    if ( data.r ) \x7b
      ws.close();
      location.reload();
    \x7d
  \x7d;
\x7d
setInterval(function () \x7b
  if ( ws ) \x7b
    if ( ws.readyState !== 1 ) \x7b
      ws.close();
      socket();
    \x7d
  \x7d else \x7b
    socket();
  \x7d
\x7d, 1000);
</script>

"

/-- The snippet as a byte string (`[]byte(snippet)` in the Go code). -/
def snippet : ByteStr := snippetString.data

/-- The marker searched for by `bytes.Index(recorder.Body.Bytes(), []byte("</head>"))`. -/
def marker : ByteStr := "</head>".data

/-- Go `http.Header`, as an association list with canonical keys. -/
abbrev Header := List (String × String)

/-- `http.Header.Get`: first value for the key, or "" when absent. -/
def headerGet (hs : Header) (k : String) : String :=
  ((hs.find? (fun p => p.1 == k)).map Prod.snd).getD ""

/-- `http.Header.Set` (and the map write `w.Header()[k] = v`): replace any
existing entry for the key. -/
def setHeader (hs : Header) (k v : String) : Header :=
  (k, v) :: hs.filter (fun p => !(p.1 == k))

/-- `regexp.MatchString("^text/html.*", contentType)`: the anchored pattern
matches exactly the strings that start with "text/html" (`.*` is
unconstrained and there is no end anchor); this literal pattern is valid,
so the error branch of `MatchString` is unreachable here. -/
def isHTML (contentType : String) : Bool :=
  ("text/html").data.isPrefixOf contentType.data

/-- `bytes.Index(hs, needle)`: offset of the first occurrence of `needle`
in `hs` (`none` standing for Go's -1; `some 0` on an empty needle, as in Go). -/
def bytesIndex (needle : ByteStr) : ByteStr → Option Nat
  | [] => if needle.isPrefixOf [] then some 0 else none
  | c :: t =>
    if needle.isPrefixOf (c :: t) then some 0
    else (bytesIndex needle t).map (fun j => j + 1)

/-- The in-memory response recorded by `httptest.NewRecorder` after the
wrapped `http.FileServer` ran: status code, headers and body. -/
structure BufferedResponse where
  code : Nat
  headers : Header
  body : ByteStr

/-- What `filteringFileServer.ServeHTTP` emits on the real
`http.ResponseWriter`: the status actually sent (the handler never calls
`WriteHeader`, so net/http sends its default 200 on the first `Write`),
the headers at first write, and the bytes written, in order. -/
structure EmittedResponse where
  status : Nat
  headers : Header
  body : ByteStr

/-- The pass-through branch of `ServeHTTP`: diagnostic header `Skipped`,
body written verbatim. -/
def serveSkipped (b : BufferedResponse) : EmittedResponse :=
  { status := 200
    headers := setHeader b.headers ("X-Via-FilteringFileServer") ("Skipped")
    body := b.body }

/-- `filteringFileServer.ServeHTTP` (main.go lines 351-396): run the wrapped
file server into a recorder, copy all recorded headers to the real response,
then either splice the snippet before the first `</head>` of an HTML body
(updating Content-Length) or pass the body through verbatim.  The recorded
status code is never forwarded (no `WriteHeader` call), so the emitted
status is net/http's default 200. -/
def serveHTTP (b : BufferedResponse) : EmittedResponse :=
  let html := isHTML (headerGet b.headers ("Content-Type"))
  match bytesIndex marker b.body with
  | some i =>
    if html then
      { status := 200
        headers := setHeader
          (setHeader b.headers ("X-Via-FilteringFileServer") ("Filtered"))
          ("Content-Length") (toString (b.body.length + snippet.length))
        body := b.body.take i ++ snippet ++ b.body.drop i }
    else serveSkipped b
  | none => serveSkipped b

/-! ### Change Detector (`newWatcher`, main.go lines 259-290)

A raw fsnotify event carries a path and an `Op` bitmask
(fsnotify v1: Create = 1, Write = 2, Remove = 4, Rename = 8, Chmod = 16).
`regexp.MatchString(matchPattern, event.Name)` compiles the pattern on
every call; compilation of a malformed pattern yields an error, which
`maybeBail` turns into `log.Fatal` (process exit).  We model the regexp
engine as a `compile` function returning `none` on a malformed pattern
and otherwise the compiled pattern's match semantics. -/

structure FsEvent where
  name : String
  op : Nat

/-- `event.Op & fsnotify.Chmod == fsnotify.Chmod` (Chmod = 16). -/
def hasChmodBit (op : Nat) : Bool := (op &&& 16) == 16

/-- fsnotify v1 `Op.String()`: pipe-joined names of the set bits.
(The exact rendering is external-library behaviour; modelled directly
from fsnotify v1's source.) -/
def opString (op : Nat) : String :=
  let parts :=
    (if (op &&& 1) == 1 then "|CREATE" else "") ++
    (if (op &&& 4) == 4 then "|REMOVE" else "") ++
    (if (op &&& 2) == 2 then "|WRITE" else "") ++
    (if (op &&& 8) == 8 then "|RENAME" else "") ++
    (if (op &&& 16) == 16 then "|CHMOD" else "")
  if parts == "" then "" else parts.drop 1

/-- fsnotify v1 `Event.String()`: `fmt.Sprintf("%q: %s", e.Name, e.Op.String())`
(the `%q` escaping of non-printable characters is not modelled). -/
def eventString (e : FsEvent) : String :=
  "\"" ++ e.name ++ "\": " ++ opString e.op

/-- `regexp.MatchString(pat, s)`: compiles `pat` on this very call and
matches; `none` models the `err != nil` outcome on a malformed pattern. -/
def matchString (compile : String → Option (String → Bool))
    (pat s : String) : Option Bool :=
  (compile pat).map (fun m => m s)

/-- What one iteration of the watcher's event branch does with a raw event. -/
inductive WatcherOutcome where
  /-- `notifier <- event.String()`: one ChangeEvent emitted. -/
  | emit (desc : String)
  /-- `continue`: the event is discarded, nothing emitted. -/
  | skip
  /-- `maybeBail(err)` fired: `log.Fatal`, the whole process exits. -/
  | processFatal
  deriving DecidableEq

/-- The `case event := <-watcher.Events` branch of `newWatcher`'s loop
(main.go lines 274-281): match the name against the pattern (compiled
per event; an error is process-fatal via `maybeBail`), discard on
non-match or on a set Chmod bit, otherwise emit `event.String()`. -/
def watcherStep (compile : String → Option (String → Bool))
    (pat : String) (e : FsEvent) : WatcherOutcome :=
  match matchString compile pat e.name with
  | none => WatcherOutcome.processFatal
  | some matched =>
    if !matched || hasChmodBit e.op then WatcherOutcome.skip
    else WatcherOutcome.emit (eventString e)

/-- Number of ChangeEvents the watcher emits for one raw event. -/
def emittedCount (compile : String → Option (String → Bool))
    (pat : String) (e : FsEvent) : Nat :=
  match watcherStep compile pat e with
  | WatcherOutcome.emit _ => 1
  | _ => 0

/-- The spec's notion of a pure attribute (metadata-only) change: the
operation is exactly Chmod and nothing else. -/
def isPureChmod (op : Nat) : Bool := op == 16

/-! ### Startup (`main`, main.go lines 398-405)

`main` parses flags, registers the two routes and calls
`log.Fatal(http.ListenAndServe(":8080", nil))`.  We record the sequence
of startup actions it performs; note that compiling or validating the
notification pattern is not among them. -/

inductive StartupAction where
  | parseFlags
  | registerReloaderRoute
  | registerRootRoute
  | listenAndServe
  /-- Compiling/validating the `-r` pattern.  `main` never does this. -/
  | compilePattern
  deriving DecidableEq

/-- The actions `main` performs, in order, before and including serving. -/
def mainStartup : List StartupAction :=
  [StartupAction.parseFlags, StartupAction.registerReloaderRoute,
   StartupAction.registerRootRoute, StartupAction.listenAndServe]

/-! ### Heartbeat (`newTicker`, main.go lines 231-248)

Each loop iteration sleeps, then runs a `select` over an unbuffered send
`ticker <- true`, a receive on `tickerShutdown`, and an empty `default`.
The environment of one iteration is which case is taken: the consumer is
ready to receive (tick delivered), a shutdown message is pending (loop
exits), or neither (default: the tick is dropped on the floor). -/

inductive TickerEnv where
  | receiverReady
  | shutdown
  | idle
  deriving DecidableEq

/-- The ticker goroutine's loop over a finite environment trace: one
`Bool` per completed iteration, `true` when the tick was delivered to a
ready receiver, `false` when it was dropped (`default` branch).  A
shutdown ends the loop; the ticker keeps no queue and no counter. -/
def tickerRun : List TickerEnv → List Bool
  | [] => []
  | TickerEnv.receiverReady :: rest => true :: tickerRun rest
  | TickerEnv.shutdown :: _ => []
  | TickerEnv.idle :: rest => false :: tickerRun rest

/-! ### Reload Session (`webHandler`, main.go lines 305-334)

The session loop selects between the watcher channel (`note`) and the
ticker channel (`tick`).  A `tick` event carries the environment's
outcome for the `websocket.Message.Send` that the session performs when
`somethingChanged` is set: `sendOk = false` means `Send` returned an
error, in which case `maybeBail` calls `log.Fatal` and the whole process
exits. -/

inductive SessionEvent where
  | note (desc : String)
  | tick (sendOk : Bool)
  deriving DecidableEq

structure SessionState where
  /-- the `somethingChanged` local. -/
  somethingChanged : Bool
  /-- the loop was left via `break Loop` (normal termination). -/
  terminated : Bool
  /-- `maybeBail` fired inside the loop: `log.Fatal` killed the process. -/
  processExited : Bool
  /-- number of `websocket.Message.Send` calls issued. -/
  sendsAttempted : Nat
  /-- `tickerShutdown <- true` was sent. -/
  tickerShutdownSignaled : Bool
  /-- `notifierShutdown <- true` was sent. -/
  notifierShutdownSignaled : Bool
  deriving DecidableEq

def initialSessionState : SessionState :=
  { somethingChanged := false
    terminated := false
    processExited := false
    sendsAttempted := 0
    tickerShutdownSignaled := false
    notifierShutdownSignaled := false }

/-- One iteration of `webHandler`'s select loop.  After `break Loop` or
`log.Fatal` the loop body never runs again, so the state is frozen. -/
def sessionStep (s : SessionState) (e : SessionEvent) : SessionState :=
  if s.terminated || s.processExited then s
  else
    match e with
    | SessionEvent.note _ => { s with somethingChanged := true }
    | SessionEvent.tick sendOk =>
      if s.somethingChanged then
        if sendOk then
          { s with
            sendsAttempted := s.sendsAttempted + 1
            somethingChanged := false
            tickerShutdownSignaled := true
            notifierShutdownSignaled := true
            terminated := true }
        else
          { s with
            sendsAttempted := s.sendsAttempted + 1
            processExited := true }
      else s

/-- `webHandler`'s loop over a finite trace of incoming events. -/
def sessionRun (es : List SessionEvent) : SessionState :=
  es.foldl sessionStep initialSessionState

/-! ### Header and index lemmas -/

theorem headerGet_setHeader_same (hs : Header) (k v : String) :
    headerGet (setHeader hs k v) k = v := by
  simp [headerGet, setHeader, List.find?]

theorem find?_filter_ne (hs : Header) (k k' : String) (h : (k' == k) = false) :
    List.find? (fun p => p.1 == k') (hs.filter (fun p => !(p.1 == k))) =
      List.find? (fun p => p.1 == k') hs := by
  induction hs with
  | nil => rfl
  | cons a t ih =>
    by_cases ha : a.1 = k
    · have h1 : (a.1 == k) = true := beq_iff_eq.mpr ha
      have h2 : (a.1 == k') = false := by
        rw [beq_eq_false_iff_ne] at h ⊢
        rw [ha]
        exact fun hkk' => h hkk'.symm
      simp [List.filter_cons, h1, List.find?, h2, ih]
    · have h1 : (a.1 == k) = false := beq_eq_false_iff_ne.mpr ha
      by_cases hk' : (a.1 == k') = true
      · simp [List.filter_cons, h1, List.find?, hk']
      · simp only [Bool.not_eq_true] at hk'
        simp [List.filter_cons, h1, List.find?, hk', ih]

theorem headerGet_setHeader_ne (hs : Header) (k k' v : String)
    (h : (k' == k) = false) :
    headerGet (setHeader hs k v) k' = headerGet hs k' := by
  have hk : (k == k') = false := by
    rw [beq_eq_false_iff_ne] at h ⊢
    exact fun hkk' => h hkk'.symm
  simp only [headerGet, setHeader, List.find?, hk]
  rw [find?_filter_ne hs k k' h]

theorem bytesIndex_le_length (needle : ByteStr) :
    ∀ hs i, bytesIndex needle hs = some i → i ≤ hs.length := by
  intro hs
  induction hs with
  | nil =>
    intro i h
    simp only [bytesIndex] at h
    split at h
    · simp at h
      omega
    · simp at h
  | cons c t ih =>
    intro i h
    simp only [bytesIndex] at h
    split at h
    · simp at h
      omega
    · cases hj : bytesIndex needle t with
      | none => rw [hj] at h; simp at h
      | some j =>
        rw [hj] at h
        simp at h
        have := ih j hj
        simp [List.length_cons]
        omega

/-! ### Branch lemmas for `serveHTTP` -/

theorem serveHTTP_skipped (b : BufferedResponse)
    (h : isHTML (headerGet b.headers ("Content-Type")) = false ∨
      bytesIndex marker b.body = none) :
    serveHTTP b = serveSkipped b := by
  unfold serveHTTP
  rcases h with h | h
  · cases hidx : bytesIndex marker b.body <;> simp [h, hidx]
  · simp [h]

theorem serveHTTP_filtered (b : BufferedResponse) (i : Nat)
    (hh : isHTML (headerGet b.headers ("Content-Type")) = true)
    (hi : bytesIndex marker b.body = some i) :
    serveHTTP b =
      { status := 200
        headers := setHeader
          (setHeader b.headers ("X-Via-FilteringFileServer") ("Filtered"))
          ("Content-Length") (toString (b.body.length + snippet.length))
        body := b.body.take i ++ snippet ++ b.body.drop i } := by
  unfold serveHTTP
  simp [hh, hi]

/-! ### Claims about the Content Filter -/

/-- C2 counterexample: the code copies every recorded header to the real
response and drops none of them; at this concrete input the wrapped
handler produced a last-modified header and the emitted response still
carries it, contradicting the claim that it is dropped. -/
theorem c2_counterexample :
    headerGet
      (serveHTTP
        { code := 200
          headers := [(("Content-Type"), ("text/plain")),
                      (("Last-Modified"), ("Mon, 01 Jan 2024 00:00:00 GMT"))]
          body := [] }).headers ("Last-Modified") =
      "Mon, 01 Jan 2024 00:00:00 GMT" := by
  rfl

/-- C2 (amended): for every request, the Content Filter copies every
response header produced by the wrapped static handler to the real
response unchanged — including last-modified and entity-tag, which are
NOT dropped; the only keys whose value can differ are the diagnostic
X-Via-FilteringFileServer header it adds and content-length, which the
filtered branch overwrites. -/
theorem c2_headers_forwarded_unchanged (b : BufferedResponse) (k : String)
    (h1 : (k == "X-Via-FilteringFileServer") = false)
    (h2 : (k == "Content-Length") = false) :
    headerGet (serveHTTP b).headers k = headerGet b.headers k := by
  cases hidx : bytesIndex marker b.body with
  | none =>
    rw [serveHTTP_skipped b (Or.inr hidx)]
    exact headerGet_setHeader_ne _ _ _ _ h1
  | some i =>
    cases hh : isHTML (headerGet b.headers ("Content-Type")) with
    | false =>
      rw [serveHTTP_skipped b (Or.inl hh)]
      exact headerGet_setHeader_ne _ _ _ _ h1
    | true =>
      rw [serveHTTP_filtered b i hh hidx]
      show headerGet (setHeader (setHeader _ _ _) _ _) k = _
      rw [headerGet_setHeader_ne _ _ _ _ h2, headerGet_setHeader_ne _ _ _ _ h1]

/-- C2 witness: concrete instance of the amended claim on a filtered
HTML response carrying a last-modified header. -/
theorem c2_witness :
    headerGet
      (serveHTTP
        { code := 200
          headers := [(("Content-Type"), ("text/html; charset=utf-8")),
                      (("Last-Modified"), ("Mon, 01 Jan 2024 00:00:00 GMT"))]
          body := ("<html><head></head></html>").data }).headers
      ("Last-Modified") =
    headerGet
      [(("Content-Type"), ("text/html; charset=utf-8")),
       (("Last-Modified"), ("Mon, 01 Jan 2024 00:00:00 GMT"))]
      ("Last-Modified") :=
  c2_headers_forwarded_unchanged _ ("Last-Modified") (by decide) (by decide)

/-- C7: for every buffered response whose recorded content-length is
correct for its body (the wrapped static file server is specified as an
external collaborator that sets it so), the emitted content-length is
the original body length plus the snippet length when the response is
filtered (HTML content type and marker present), and the original body
length when it is passed through. -/
theorem c7_content_length (b : BufferedResponse)
    (hcl : headerGet b.headers ("Content-Length") = toString b.body.length) :
    headerGet (serveHTTP b).headers ("Content-Length") =
      (if isHTML (headerGet b.headers ("Content-Type")) &&
          (bytesIndex marker b.body).isSome then
        toString (b.body.length + snippet.length)
      else toString b.body.length) := by
  cases hidx : bytesIndex marker b.body with
  | none =>
    rw [serveHTTP_skipped b (Or.inr hidx)]
    simp only [Option.isSome_none, Bool.and_false, if_false]
    rw [show (serveSkipped b).headers =
      setHeader b.headers ("X-Via-FilteringFileServer") ("Skipped") from rfl]
    rw [headerGet_setHeader_ne _ _ _ _ (by decide)]
    exact hcl
  | some i =>
    cases hh : isHTML (headerGet b.headers ("Content-Type")) with
    | false =>
      rw [serveHTTP_skipped b (Or.inl hh)]
      simp only [Bool.false_and, if_false]
      rw [show (serveSkipped b).headers =
        setHeader b.headers ("X-Via-FilteringFileServer") ("Skipped") from rfl]
      rw [headerGet_setHeader_ne _ _ _ _ (by decide)]
      exact hcl
    | true =>
      rw [serveHTTP_filtered b i hh hidx]
      simp only [Option.isSome_some, Bool.and_true, if_true]
      exact headerGet_setHeader_same _ _ _

set_option maxRecDepth 8192 in
/-- C7 witness: the filtered and pass-through cases evaluated at
concrete responses with correct recorded content-length. -/
theorem c7_witness :
    (headerGet
        (serveHTTP
          { code := 200
            headers := [(("Content-Type"), ("text/html")),
                        (("Content-Length"), ("26"))]
            body := ("<html><head></head></html>").data }).headers
        ("Content-Length") =
      toString (("<html><head></head></html>").data.length + snippet.length)) ∧
    (headerGet
        (serveHTTP
          { code := 200
            headers := [(("Content-Type"), ("text/plain")),
                        (("Content-Length"), ("5"))]
            body := ("hello").data }).headers ("Content-Length") = "5") := by
  constructor
  · have h := c7_content_length
      { code := 200
        headers := [(("Content-Type"), ("text/html")),
                    (("Content-Length"), ("26"))]
        body := ("<html><head></head></html>").data } (by rfl)
    rw [h]
    decide
  · have h := c7_content_length
      { code := 200
        headers := [(("Content-Type"), ("text/plain")),
                    (("Content-Length"), ("5"))]
        body := ("hello").data } (by rfl)
    rw [h]
    decide

/-- C8: for every buffered HTML body containing the marker at first
offset i, the filtered output is body[0,i) ++ snippet ++ body[i,end)
written in that order, and removing exactly that spliced substring
(the snippet.length bytes starting at offset i) reconstructs the
original body byte-for-byte. -/
theorem c8_splice_roundtrip (b : BufferedResponse) (i : Nat)
    (hh : isHTML (headerGet b.headers ("Content-Type")) = true)
    (hi : bytesIndex marker b.body = some i) :
    (serveHTTP b).body = b.body.take i ++ snippet ++ b.body.drop i ∧
    (serveHTTP b).body.take i ++ (serveHTTP b).body.drop (i + snippet.length) =
      b.body := by
  have hb : (serveHTTP b).body = b.body.take i ++ snippet ++ b.body.drop i := by
    rw [serveHTTP_filtered b i hh hi]
  refine ⟨hb, ?_⟩
  have hle : i ≤ b.body.length := bytesIndex_le_length marker b.body i hi
  have hlen : (b.body.take i).length = i := by
    rw [List.length_take]
    omega
  have h1 : (b.body.take i ++ snippet ++ b.body.drop i).take i = b.body.take i := by
    rw [List.append_assoc, List.take_left' hlen]
  have h2 : (b.body.take i ++ snippet ++ b.body.drop i).drop (i + snippet.length) =
      b.body.drop i := by
    refine List.drop_left' ?_
    rw [List.length_append, hlen]
  rw [hb, h1, h2, List.take_append_drop]

set_option maxRecDepth 8192 in
/-- C8 witness: the splice and its removal evaluated on a concrete HTML
body whose first `</head>` sits at offset 12. -/
theorem c8_witness :
    (serveHTTP
        { code := 200
          headers := [(("Content-Type"), ("text/html"))]
          body := ("<html><head></head></html>").data }).body =
      ("<html><head></head></html>").data.take 12 ++ snippet ++
        ("<html><head></head></html>").data.drop 12 ∧
    (serveHTTP
        { code := 200
          headers := [(("Content-Type"), ("text/html"))]
          body := ("<html><head></head></html>").data }).body.take 12 ++
      (serveHTTP
        { code := 200
          headers := [(("Content-Type"), ("text/html"))]
          body := ("<html><head></head></html>").data }).body.drop
        (12 + snippet.length) =
      ("<html><head></head></html>").data :=
  c8_splice_roundtrip _ 12 (by decide) (by decide)

/-- C10: the Content Filter never forwards the recorded status code: the
emitted status is always the default 200, whatever status (e.g. 404) the
wrapped file server recorded, and in the pass-through case the recorded
(error) body is served verbatim under that 200. -/
theorem c10_status_discarded (b : BufferedResponse) :
    (serveHTTP b).status = 200 ∧
    (isHTML (headerGet b.headers ("Content-Type")) = false →
      (serveHTTP b).body = b.body) := by
  constructor
  · cases hidx : bytesIndex marker b.body with
    | none => rw [serveHTTP_skipped b (Or.inr hidx)]; rfl
    | some i =>
      cases hh : isHTML (headerGet b.headers ("Content-Type")) with
      | false => rw [serveHTTP_skipped b (Or.inl hh)]; rfl
      | true => rw [serveHTTP_filtered b i hh hidx]
  · intro h
    rw [serveHTTP_skipped b (Or.inl h)]
    rfl

/-- C10 witness: a buffered 404 from the file server is emitted with
status 200 and its error body intact. -/
theorem c10_witness :
    (serveHTTP
        { code := 404
          headers := [(("Content-Type"), ("text/plain; charset=utf-8"))]
          body := ("404 page not found\n").data }).status = 200 ∧
    (serveHTTP
        { code := 404
          headers := [(("Content-Type"), ("text/plain; charset=utf-8"))]
          body := ("404 page not found\n").data }).body =
      ("404 page not found\n").data :=
  ⟨(c10_status_discarded _).1, (c10_status_discarded _).2 (by decide)⟩

/-! ### Claims about the Change Detector and startup -/

/-- C3 counterexample: an event with op Write|Chmod (= 18) on a matching
path is not a pure attribute change, yet the watcher discards it because
its Chmod bit is set: zero ChangeEvents are emitted where the claim
requires exactly one. -/
theorem c3_counterexample :
    isPureChmod 18 = false ∧
    matchString (fun _ => some (fun _ => true)) (".*") ("index.md") =
      some true ∧
    emittedCount (fun _ => some (fun _ => true)) (".*")
      { name := "index.md", op := 18 } = 0 :=
  ⟨rfl, rfl, rfl⟩

/-- C3 (amended): for every raw filesystem event, under a pattern that
compiles to matcher m: exactly one ChangeEvent is emitted when the path
matches and the op does not include the Chmod bit, and zero otherwise —
the code discards any event whose op includes Chmod, even combined ops
such as Write|Chmod, not only pure attribute changes. -/
theorem c3_chmod_bit_filter (compile : String → Option (String → Bool))
    (pat : String) (m : String → Bool) (hc : compile pat = some m)
    (e : FsEvent) :
    emittedCount compile pat e =
      if m e.name && !(hasChmodBit e.op) then 1 else 0 := by
  simp only [emittedCount, watcherStep, matchString, hc, Option.map_some']
  cases hm : m e.name <;> cases hcb : hasChmodBit e.op <;>
    simp [hm, hcb]

/-- C3 witness: the amended claim evaluated on a concrete matching write
event. -/
theorem c3_witness :
    emittedCount (fun _ => some (fun s => s == "index.md")) (".*")
      { name := "index.md", op := 2 } =
      (if ((fun s => s == "index.md") ("index.md")) && !(hasChmodBit 2)
       then 1 else 0) :=
  c3_chmod_bit_filter _ _ (fun s => s == "index.md") rfl _

/-- C4 counterexample: `main` performs no pattern compilation before
accepting connections, and with a malformed pattern (its compilation
yields an error) the watcher hits a process-fatal failure while handling
an individual filesystem event — pattern validity is re-checked, and
newly fails, per event. -/
theorem c4_counterexample :
    StartupAction.compilePattern ∉ mainStartup ∧
    watcherStep (fun _ => none) ("(") { name := "index.md", op := 2 } =
      WatcherOutcome.processFatal :=
  ⟨by decide, rfl⟩

/-- C4 (amended): the pattern is never compiled or validated at startup —
`main` only parses flags, registers the two routes and serves; instead
`regexp.MatchString` compiles the pattern anew on every filesystem event,
and for a malformed pattern that per-event compilation fails and kills
the whole process via `maybeBail`/`log.Fatal` at event-handling time,
after connections were accepted. -/
theorem c4_pattern_compiled_per_event
    (compile : String → Option (String → Bool)) (pat : String) (e : FsEvent)
    (hbad : compile pat = none) :
    StartupAction.compilePattern ∉ mainStartup ∧
    watcherStep compile pat e = WatcherOutcome.processFatal := by
  refine ⟨by decide, ?_⟩
  simp only [watcherStep, matchString, hbad, Option.map_none']

/-- C4 witness: the amended claim at a concrete malformed pattern and a
concrete write event. -/
theorem c4_witness :
    StartupAction.compilePattern ∉ mainStartup ∧
    watcherStep (fun _ => none) ("(") { name := "a.md", op := 2 } =
      WatcherOutcome.processFatal :=
  c4_pattern_compiled_per_event _ _ _ rfl

/-! ### Claim about the Heartbeat -/

/-- C9: a tick recorded as delivered at iteration n requires the receiver
to have been ready at iteration n itself — the ticker holds no queue, so a
receive never obtains a tick generated before the receiver became ready —
and a tick firing while the consumer is idle is dropped on the spot. -/
theorem c9_ticks_dropped_not_queued (envs : List TickerEnv) (n : Nat) :
    ((tickerRun envs).get? n = some true →
      envs.get? n = some TickerEnv.receiverReady) ∧
    (envs.get? n = some TickerEnv.idle → n < (tickerRun envs).length →
      (tickerRun envs).get? n = some false) := by
  induction envs generalizing n with
  | nil =>
    exact ⟨by intro h; simp [tickerRun] at h, by intro h; simp at h⟩
  | cons e rest ih =>
    cases e with
    | receiverReady =>
      cases n with
      | zero => exact ⟨fun _ => rfl, by intro h; simp at h⟩
      | succ m => simpa [tickerRun, Nat.succ_lt_succ_iff] using ih m
    | shutdown =>
      refine ⟨by intro h; simp [tickerRun] at h, ?_⟩
      intro _ h2
      simp [tickerRun] at h2
    | idle =>
      cases n with
      | zero => exact ⟨by intro h; simp [tickerRun] at h, fun _ _ => rfl⟩
      | succ m => simpa [tickerRun, Nat.succ_lt_succ_iff] using ih m

/-- C9 witness: in the trace [idle, receiverReady], the delivered tick at
iteration 1 coincides with the receiver being ready there, and the tick of
iteration 0 was dropped. -/
theorem c9_witness :
    ([TickerEnv.idle, TickerEnv.receiverReady].get? 1 =
      some TickerEnv.receiverReady) ∧
    (tickerRun [TickerEnv.idle, TickerEnv.receiverReady]).get? 0 =
      some false :=
  ⟨(c9_ticks_dropped_not_queued [TickerEnv.idle, TickerEnv.receiverReady] 1).1
      (by decide),
   (c9_ticks_dropped_not_queued [TickerEnv.idle, TickerEnv.receiverReady] 0).2
      (by decide) (by decide)⟩

/-! ### Claims about the Reload Session -/

/-- Invariant of `webHandler`'s loop: normal termination happens only
with both shutdown signals sent; a process exit (failed send through
`maybeBail`) happens only without them and without normal termination;
at most one send is ever attempted, and none while the loop is still
live. -/
def SessionInv (s : SessionState) : Prop :=
  (s.terminated = true →
    s.tickerShutdownSignaled = true ∧ s.notifierShutdownSignaled = true) ∧
  (s.processExited = true →
    s.terminated = false ∧ s.tickerShutdownSignaled = false ∧
      s.notifierShutdownSignaled = false) ∧
  s.sendsAttempted ≤ 1 ∧
  (s.terminated = false → s.processExited = false → s.sendsAttempted = 0) ∧
  (s.terminated = false →
    s.tickerShutdownSignaled = false ∧ s.notifierShutdownSignaled = false)

theorem sessionInv_initial : SessionInv initialSessionState := by
  simp [SessionInv, initialSessionState]

theorem sessionInv_step (s : SessionState) (e : SessionEvent)
    (h : SessionInv s) : SessionInv (sessionStep s e) := by
  obtain ⟨h1, h2, h3, h4, h5⟩ := h
  unfold sessionStep
  cases hf : s.terminated || s.processExited with
  | true => exact ⟨h1, h2, h3, h4, h5⟩
  | false =>
    have ht : s.terminated = false := by
      cases hts : s.terminated
      · rfl
      · rw [hts] at hf; simp at hf
    have hp : s.processExited = false := by
      cases hps : s.processExited
      · rfl
      · rw [hps] at hf; simp at hf
    have hs0 : s.sendsAttempted = 0 := h4 ht hp
    have hsig := h5 ht
    cases e with
    | note d =>
      simp only [if_false, Bool.false_eq_true]
      exact ⟨by intro hc; exact absurd hc (by simp [ht]),
        by intro hc; exact absurd hc (by simp [hp]),
        h3, fun _ _ => hs0, fun _ => hsig⟩
    | tick sendOk =>
      cases hch : s.somethingChanged with
      | false =>
        simp only [if_false]
        exact ⟨h1, h2, h3, h4, h5⟩
      | true =>
        cases sendOk with
        | true =>
          refine ⟨fun _ => ⟨rfl, rfl⟩, ?_,
            by show s.sendsAttempted + 1 ≤ 1; omega, ?_, ?_⟩
          · intro hc
            exact absurd hc (by simp [hp])
          · intro hc
            exact absurd hc (by simp)
          · intro hc
            exact absurd hc (by simp)
        | false =>
          refine ⟨?_, fun _ => ⟨ht, hsig.1, hsig.2⟩,
            by show s.sendsAttempted + 1 ≤ 1; omega, ?_, fun _ => hsig⟩
          · intro hc
            exact absurd hc (by simp [ht])
          · intro _ hc
            exact absurd hc (by simp)

theorem sessionInv_run (es : List SessionEvent) :
    SessionInv (sessionRun es) := by
  suffices h : ∀ s, SessionInv s → SessionInv (es.foldl sessionStep s) from
    h _ sessionInv_initial
  induction es with
  | nil => exact fun s hs => hs
  | cons e t ih => exact fun s hs => ih _ (sessionInv_step s e hs)

/-- A trace without any ChangeEvent leaves the session in its initial
state: the pending flag is never set, so ticks do nothing. -/
theorem foldl_no_note (es : List SessionEvent)
    (h : ∀ e ∈ es, ∀ d, e ≠ SessionEvent.note d) :
    es.foldl sessionStep initialSessionState = initialSessionState := by
  induction es with
  | nil => rfl
  | cons e t ih =>
    have he : sessionStep initialSessionState e = initialSessionState := by
      cases e with
      | note d => exact absurd rfl (h _ (List.mem_cons_self _ _) d)
      | tick ok => rfl
    rw [List.foldl_cons, he]
    exact ih fun x hx d => h x (List.mem_cons_of_mem _ hx) d

/-- C1 counterexample: after a change notification, a heartbeat tick whose
send fails makes `maybeBail` call `log.Fatal` — the process exits; the
session has not signaled either helper and did not terminate normally,
contradicting the claim that the failure is contained to the session. -/
theorem c1_counterexample :
    (sessionRun [SessionEvent.note ("x"), SessionEvent.tick false]).processExited
        = true ∧
    (sessionRun [SessionEvent.note ("x"),
        SessionEvent.tick false]).tickerShutdownSignaled = false ∧
    (sessionRun [SessionEvent.note ("x"),
        SessionEvent.tick false]).notifierShutdownSignaled = false ∧
    (sessionRun [SessionEvent.note ("x"), SessionEvent.tick false]).terminated
        = false := by
  decide

/-- C1 (amended): if sending the reload message fails, `maybeBail` invokes
`log.Fatal`: the entire server process exits.  The session does not cancel
its helpers (neither shutdown channel is signaled), does not terminate
normally, and — the process being gone — every other session is affected. -/
theorem c1_send_failure_fatal_to_process (es : List SessionEvent)
    (h : (sessionRun es).processExited = true) :
    (sessionRun es).terminated = false ∧
    (sessionRun es).tickerShutdownSignaled = false ∧
    (sessionRun es).notifierShutdownSignaled = false :=
  (sessionInv_run es).2.1 h

/-- C1 witness: the amended claim at the concrete failing trace. -/
theorem c1_witness :
    (sessionRun [SessionEvent.note ("x"), SessionEvent.tick false]).terminated
        = false ∧
    (sessionRun [SessionEvent.note ("x"),
        SessionEvent.tick false]).tickerShutdownSignaled = false ∧
    (sessionRun [SessionEvent.note ("x"),
        SessionEvent.tick false]).notifierShutdownSignaled = false :=
  c1_send_failure_fatal_to_process
    [SessionEvent.note ("x"), SessionEvent.tick false] (by decide)

/-- C5: over any finite trace, a session attempts at most one reload
send, and whenever it has transitioned to Terminated (left its loop via
break) it has signaled shutdown to both the ticker and the notifier. -/
theorem c5_at_most_one_send (es : List SessionEvent) :
    (sessionRun es).sendsAttempted ≤ 1 ∧
    ((sessionRun es).terminated = true →
      (sessionRun es).tickerShutdownSignaled = true ∧
      (sessionRun es).notifierShutdownSignaled = true) :=
  ⟨(sessionInv_run es).2.2.1, (sessionInv_run es).1⟩

/-- C5 witness: a trace with one change and one successful tick: one send,
terminated, both helpers signaled. -/
theorem c5_witness :
    (sessionRun [SessionEvent.note ("x"), SessionEvent.tick true]).sendsAttempted
        ≤ 1 ∧
    ((sessionRun [SessionEvent.note ("x"),
        SessionEvent.tick true]).tickerShutdownSignaled = true ∧
      (sessionRun [SessionEvent.note ("x"),
        SessionEvent.tick true]).notifierShutdownSignaled = true) :=
  ⟨(c5_at_most_one_send [SessionEvent.note ("x"), SessionEvent.tick true]).1,
   (c5_at_most_one_send [SessionEvent.note ("x"), SessionEvent.tick true]).2
      (by decide)⟩

/-- C6: a session never attempts a reload send unless a ChangeEvent
occurred earlier in its trace, and a step increases the send count only
when it is a heartbeat tick arriving while the pending-change flag was
already set by a previous observation — never on the change event
itself. -/
theorem c6_send_gated_by_change (es : List SessionEvent) (s : SessionState)
    (e : SessionEvent) :
    (1 ≤ (sessionRun es).sendsAttempted →
      ∃ d, SessionEvent.note d ∈ es) ∧
    (s.sendsAttempted < (sessionStep s e).sendsAttempted →
      (∃ ok, e = SessionEvent.tick ok) ∧ s.somethingChanged = true) := by
  constructor
  · intro h
    by_contra hn
    push_neg at hn
    have hrun : sessionRun es = initialSessionState :=
      foldl_no_note es fun x hx d hxd => hn d (hxd ▸ hx)
    rw [hrun] at h
    simp [initialSessionState] at h
  · intro h
    unfold sessionStep at h
    cases hf : s.terminated || s.processExited with
    | true => rw [hf] at h; simp at h
    | false =>
      rw [hf] at h
      cases e with
      | note d => simp at h
      | tick ok =>
        refine ⟨⟨ok, rfl⟩, ?_⟩
        cases hch : s.somethingChanged with
        | true => rfl
        | false => rw [hch] at h; simp at h

/-- C6 witness: the trace [note, successful tick] sends and indeed
contains a note, and the sending step is a tick taken with the flag set. -/
theorem c6_witness :
    (∃ d, SessionEvent.note d ∈
      [SessionEvent.note ("x"), SessionEvent.tick true]) ∧
    ((∃ ok, SessionEvent.tick true = SessionEvent.tick ok) ∧
      ({ initialSessionState with somethingChanged := true } :
        SessionState).somethingChanged = true) :=
  ⟨(c6_send_gated_by_change [SessionEvent.note ("x"), SessionEvent.tick true]
      { initialSessionState with somethingChanged := true }
      (SessionEvent.tick true)).1 (by decide),
   (c6_send_gated_by_change [SessionEvent.note ("x"), SessionEvent.tick true]
      { initialSessionState with somethingChanged := true }
      (SessionEvent.tick true)).2 (by decide)⟩

end MdwikiDevServer
